import Mathlib

/-!
# Verification of the nuxbe-printer-bridge synchronization and job-lifecycle engine

This file gives a shallow embedding, in Lean 4, of the core logic of the
printer-bridge agent: the printer-directory synchronizer
(`src/services/printer_sync.rs`), the persisted-map change detection
(`src/utils/printer_storage.rs`), the local-printer → API-record conversion
(`src/models/api.rs`), the print-job lifecycle tracker and its status-checking
cycle (`src/services/print_job.rs`), the push-channel catch-up path
(`src/services/websocket.rs`), and the cancellation behaviour of the
background loops.

Rust `HashMap<String, Printer>` values are embedded as association lists
`List (String × Printer)`; where a proof needs the HashMap invariant that
keys are distinct, it carries an explicit `Nodup` hypothesis.  Network and
spooler effects are embedded as explicit oracle functions (create results,
CUPS job-state queries, per-id job fetches), and each remote call issued by
an algorithm is recorded in a call log so that "zero calls" claims can be
stated directly.
-/

namespace PrinterBridge

/-- Decidable equality for `Except`, used to evaluate fallible results on
concrete inputs. -/
def exceptDecEq {ε α : Type} [DecidableEq ε] [DecidableEq α] :
    DecidableEq (Except ε α) := fun a b =>
  match a, b with
  | Except.error e, Except.error f =>
    if h : e = f then Decidable.isTrue (by rw [h])
    else Decidable.isFalse fun hc => by cases hc; exact h rfl
  | Except.ok x, Except.ok y =>
    if h : x = y then Decidable.isTrue (by rw [h])
    else Decidable.isFalse fun hc => by cases hc; exact h rfl
  | Except.error _, Except.ok _ => Decidable.isFalse fun hc => by cases hc
  | Except.ok _, Except.error _ => Decidable.isFalse fun hc => by cases hc

instance {ε α : Type} [DecidableEq ε] [DecidableEq α] :
    DecidableEq (Except ε α) := exceptDecEq

/-- A local print queue as known to the agent (models.rs `Printer`, in the
revision used by `api.rs`, `server.rs` and `printer_storage.rs`: it carries
the CUPS queue name `system_name` as stable id and an optional `uri`). -/
structure Printer where
  name : String
  system_name : String
  uri : Option String
  description : String
  location : String
  make_and_model : String
  media_sizes : List String
  printer_id : Option Nat
deriving DecidableEq, Repr

/-- A remote printer-directory record (models/api.rs `ApiPrinter`). -/
structure ApiPrinter where
  id : Option Nat
  name : String
  system_name : Option String
  uri : Option String
  spooler_name : String
  location : Option String
  make_and_model : Option String
  media_sizes : List String
  is_active : Option Bool
  is_visible : Option Bool
deriving DecidableEq, Repr

/-- `impl From<&Printer> for ApiPrinter` (models/api.rs lines 30–53): the
conversion used by every remote create and update.  An empty local
`media_sizes` list is replaced by `["A4"]` (with a warning); otherwise the
list is copied unchanged.  `spooler_name` is left empty here and set to the
instance name by the caller, exactly as in the source. -/
def apiPrinterOfPrinter (printer : Printer) : ApiPrinter :=
  { id := printer.printer_id
    name := printer.name
    system_name := some printer.system_name
    uri := printer.uri
    spooler_name := ""
    location := some printer.location
    make_and_model := some printer.make_and_model
    media_sizes :=
      if printer.media_sizes.isEmpty then ["A4"] else printer.media_sizes
    is_active := some true
    is_visible := some true }

/-- The persisted synced-printer map, keyed by stable id. -/
abbrev PMap := List (String × Printer)

/-- printer_storage.rs `printers_have_changed` (lines 34–64): field-wise
comparison of the current map against the saved map.  Note the source
compares `system_name`, `uri`, `description`, `location`, `make_and_model`,
`media_sizes` and `printer_id` — not the display `name`. -/
def printersHaveChanged (current saved : PMap) : Bool :=
  if current.length ≠ saved.length then true
  else
    current.any fun e =>
      match List.lookup e.1 saved with
      | some sp =>
        e.2.system_name ≠ sp.system_name
          || e.2.uri ≠ sp.uri
          || e.2.description ≠ sp.description
          || e.2.location ≠ sp.location
          || e.2.make_and_model ≠ sp.make_and_model
          || e.2.media_sizes ≠ sp.media_sizes
          || e.2.printer_id ≠ sp.printer_id
      | none => true

/-- printer_storage.rs `save_printers_if_changed` (lines 67–77): writes the
map to disk only when `printers_have_changed`; the returned boolean records
whether a write happened. -/
def savePrintersIfChanged (printers saved : PMap) : Bool :=
  printersHaveChanged printers saved

/-! ## Printer directory synchronizer (src/services/printer_sync.rs) -/

/-- Lookup in the `api_by_system_name` index (printer_sync.rs lines 34–45):
API records for this instance that carry a `system_name` are inserted into a
HashMap keyed by it, later insertions overwriting earlier ones, so the map's
value for a key is the last matching record in the fetched list. -/
def lookupSys (apis : List ApiPrinter) (inst sn : String) : Option ApiPrinter :=
  (apis.filter fun a =>
    a.spooler_name == inst && a.system_name == some sn).getLast?

/-- Lookup in the legacy `api_by_name` index (printer_sync.rs lines 34–45):
API records for this instance without a `system_name`, keyed by display
name, last insertion winning. -/
def lookupByName (apis : List ApiPrinter) (inst nm : String) : Option ApiPrinter :=
  (apis.filter fun a =>
    a.spooler_name == inst && a.system_name == none && a.name == nm).getLast?

/-- One iteration of the remote-id resolution loop (printer_sync.rs lines
50–78).  Three mutually exclusive rules tried in order: match by stable id
(`system_name`), else fall back to a display-name match against legacy
records (flagging the printer legacy), else carry the saved map entry's
`printer_id` forward.  Returns the printer with its resolved id and the
legacy flag. -/
def resolveId (apis : List ApiPrinter) (inst : String) (saved : PMap)
    (sn : String) (p : Printer) : Printer × Bool :=
  match lookupSys apis inst sn with
  | some a => ({ p with printer_id := a.id }, false)
  | none =>
    match lookupByName apis inst p.name with
    | some a => ({ p with printer_id := a.id }, true)
    | none =>
      match List.lookup sn saved with
      | some sp => ({ p with printer_id := sp.printer_id }, false)
      | none => (p, false)

/-- The matching pass applied to the whole local map. -/
def matchedMap (apis : List ApiPrinter) (inst : String) (saved : PMap)
    (local_printers : PMap) : PMap :=
  local_printers.map fun e => (e.1, (resolveId apis inst saved e.1 e.2).1)

/-- The `legacy_matched` set (printer_sync.rs lines 48, 66): keys of local
printers whose id was resolved via the display-name fallback. -/
def legacyKeys (apis : List ApiPrinter) (inst : String) (saved : PMap)
    (local_printers : PMap) : List String :=
  (local_printers.filter fun e => (resolveId apis inst saved e.1 e.2).2).map
    Prod.fst

/-- The create loop's effect on one entry (printer_sync.rs lines 80–101): a
printer with no resolved id is created remotely; on success the returned
printer (same fields, id set) replaces the entry, on failure the entry is
left unchanged.  `createResult` is the oracle for the remote create call. -/
def applyCreate (createResult : String → Option Nat) (e : String × Printer) :
    String × Printer :=
  if e.2.printer_id.isNone then
    match createResult e.1 with
    | some k => (e.1, { e.2 with printer_id := some k })
    | none => e
  else e

/-- The map after the create loop. -/
def createdMap (createResult : String → Option Nat) (m : PMap) : PMap :=
  m.map (applyCreate createResult)

/-- The create calls issued: one per entry whose id was unresolved after
matching. -/
def createCalls (m : PMap) : List Printer :=
  (m.filter fun e => e.2.printer_id.isNone).map Prod.snd

/-- The delete loop (printer_sync.rs lines 103–131): every saved entry whose
key is absent from the current local discovery and whose `printer_id` is set
is deleted remotely by that id. -/
def deleteCalls (saved local_printers : PMap) : List Nat :=
  saved.filterMap fun e =>
    if (List.lookup e.1 local_printers).isSome then none else e.2.printer_id

/-- The update loop (printer_sync.rs lines 133–166): a local printer needs
an update when the saved entry has an id and differs from the local one, or
when it was legacy-matched; the update is issued only if the post-create map
has the printer with an id, and the payload is that printer. -/
def updateCalls (local_printers saved updated : PMap)
    (legacy : List String) : List Printer :=
  local_printers.filterMap fun e =>
    let needs_update :=
      match List.lookup e.1 saved with
      | some sp => sp.printer_id.isSome && decide (e.2 ≠ sp)
      | none => false
    let is_legacy := legacy.contains e.1
    if needs_update || is_legacy then
      match List.lookup e.1 updated with
      | some up => if up.printer_id.isSome then some up else none
      | none => none
    else none

/-- The remote calls issued by one synchronization pass. -/
structure SyncCalls where
  creates : List Printer
  updates : List Printer
  deletes : List Nat
deriving DecidableEq, Repr

/-- printer_sync.rs `sync_printers_with_api` (lines 12–169) as a pure
function: clone the local map, resolve ids (stable id, else legacy name,
else saved id), create unresolved printers through the `createResult`
oracle, delete saved entries gone from local discovery, update changed and
legacy-matched printers.  Returns the updated map and the call log. -/
def syncPrintersWithApi (apis : List ApiPrinter) (inst : String)
    (createResult : String → Option Nat) (local_printers saved : PMap) :
    PMap × SyncCalls :=
  let m1 := matchedMap apis inst saved local_printers
  let legacy := legacyKeys apis inst saved local_printers
  let updated := createdMap createResult m1
  (updated,
    { creates := createCalls m1
      updates := updateCalls local_printers saved updated legacy
      deletes := deleteCalls saved local_printers })

/-- delete_printer_from_api's response handling (printer_sync.rs lines
305–340): a 404 response is treated as already-deleted success, any other
non-2xx status is an error. -/
def deleteStatusResult (status : Nat) : Except String Unit :=
  if status = 404 then Except.ok ()
  else if 200 ≤ status ∧ status ≤ 299 then Except.ok ()
  else Except.error "Failed to delete printer"

/-- Modelled from the spec: the periodic pass's rebuild of the local map
(section 4.1 steps preceding the sync call; the current revision of
`check_for_new_printers` is not in the source tree — the stale revision in
src/services/printer.rs:229–239 and the startup path in
src/server.rs:63–73 both implement this step).  Each discovered printer
keeps its fields, and its `printer_id` is carried over from the saved map
entry under the same stable id when one exists — the id is "carried forward
from the previously-synced map, never invented locally". -/
def mergeSavedIds (discovered saved : PMap) : PMap :=
  discovered.map fun e =>
    match List.lookup e.1 saved with
    | some sp => (e.1, { e.2 with printer_id := sp.printer_id })
    | none => e

/-- The key sequence of a printer map. -/
def pmapKeys (m : PMap) : List String := m.map Prod.fst

/-- Replace a printer's remote id, leaving every other field unchanged. -/
def setId (p : Printer) (i : Option Nat) : Printer := { p with printer_id := i }

/-- The per-entry function of `mergeSavedIds`. -/
def mergeIdFn (saved : PMap) (k : String) (p : Printer) : Printer :=
  match List.lookup k saved with
  | some sp => setId p sp.printer_id
  | none => p

/-- The per-entry function of the create loop (`applyCreate`). -/
def createFn (createResult : String → Option Nat) (k : String) (p : Printer) :
    Printer :=
  if p.printer_id.isNone then
    match createResult k with
    | some i => setId p (some i)
    | none => p
  else p

/-- The whole per-entry effect of one synchronization pass on a discovered
printer: carry the saved id forward, resolve against the remote directory,
then create if still unresolved. -/
def passFn (apis : List ApiPrinter) (inst : String)
    (createResult : String → Option Nat) (saved : PMap) (k : String)
    (p : Printer) : Printer :=
  createFn createResult k
    ((resolveId apis inst saved k (mergeIdFn saved k p)).1)

/-- Modelled from the spec: one full periodic synchronization pass
(section 4.1; the current revision of `check_for_new_printers` is not in
the source tree — the revision in src/services/printer.rs:216–286 is the
stale one that predates `save_printers_if_changed`).  The pass rebuilds the
local map carrying the saved `printer_id`s forward, runs
`sync_printers_with_api`, and writes the result to persistent storage only
if it differs field-wise from the input map (printer_storage.rs:67–77).
Returns the updated map, the remote calls issued, and whether the map was
written. -/
def syncPass (apis : List ApiPrinter) (inst : String)
    (createResult : String → Option Nat) (discovered saved : PMap) :
    PMap × SyncCalls × Bool :=
  let local_printers := mergeSavedIds discovered saved
  let r := syncPrintersWithApi apis inst createResult local_printers saved
  (r.1, r.2, savePrintersIfChanged r.1 saved)

/-! ## Print-job lifecycle (src/services/print_job.rs) -/

/-- Modelled from the spec: the job lifecycle status enum (`PrintJobStatus`
in the models of the current revision, referenced throughout
src/services/print_job.rs but whose declaration is not in the source tree):
`Queued | Processing | Completed | Failed | Cancelled`, terminal statuses
being `Completed`, `Failed`, `Cancelled`. -/
inductive PrintJobStatus where
  | queued
  | processing
  | completed
  | failed
  | cancelled
deriving DecidableEq, Repr

/-- Modelled from the spec: `PrintJobStatus::is_terminal` (used at
print_job.rs:55 and :747 for `is_completed` and registry removal) — true
exactly on `Completed`, `Failed`, `Cancelled`. -/
def PrintJobStatus.is_terminal : PrintJobStatus → Bool
  | .completed => true
  | .failed => true
  | .cancelled => true
  | _ => false

/-- Printer relationship included in a print-job response (models.rs
`PrintJobPrinter`). -/
structure PrintJobPrinter where
  id : Nat
  name : String
  spooler_name : String
  is_active : Bool
deriving DecidableEq, Repr

/-- A remote print job (models.rs `PrintJob`, in the revision used by
print_job.rs which also carries `status` and `cups_job_id`; audit metadata
fields such as timestamps and user ids are omitted as no code under
verification reads them). -/
structure PrintJob where
  id : Nat
  media_id : Nat
  printer_id : Option Nat
  is_completed : Bool
  status : Option PrintJobStatus
  cups_job_id : Option Nat
  printer : Option PrintJobPrinter
deriving DecidableEq, Repr

/-- print_job.rs `InFlightJob` (lines 19–27).  `submitted_at` is an
`Instant`, embedded as seconds on an abstract monotone clock. -/
structure InFlightJob where
  api_job_id : Nat
  cups_job_id : Nat
  printer_name : String
  submitted_at : Nat
  last_status : PrintJobStatus
deriving DecidableEq, Repr

/-- print_job.rs `CUPS_JOB_TIMEOUT_SECS` (line 38). -/
def cupsJobTimeoutSecs : Nat := 300

/-- A status update reported to the remote API by the status checker
(`update_print_job_status` call: job id, new status, optional error
message). -/
structure Report where
  job_id : Nat
  status : PrintJobStatus
  error_message : Option String
deriving DecidableEq, Repr

/-- The CUPS observation made for one in-flight job, composed of the
spawn_blocking query (print_job.rs lines 660–678: active jobs first, then
history) and the external `PrintJobStatus::from` mapping; embedded as an
oracle from printer name and CUPS job id to the mapped status, `none` when
the handle is found neither among active jobs nor in history. -/
abbrev CupsOracle := String → Nat → Option PrintJobStatus

/-- The per-job body of the status-checking cycle (print_job.rs lines
655–806): returns the report issued for this job (if any) and whether the
job is marked for removal (`completed_ids`).  A changed status is reported
(with the cancellation message when `Cancelled`); a terminal one marks the
entry for removal.  An unknown handle is ignored until the entry's age
exceeds the timeout, then a synthetic `Failed` is reported and the entry
marked. -/
def checkJob (oracle : CupsOracle) (now : Nat) (job : InFlightJob) :
    Option Report × Bool :=
  match oracle job.printer_name job.cups_job_id with
  | some st =>
    if st = job.last_status then (none, false)
    else
      let err :=
        if st = PrintJobStatus.cancelled then
          some "Job cancelled or aborted by CUPS"
        else none
      (some ⟨job.api_job_id, st, err⟩, st.is_terminal)
  | none =>
    if now - job.submitted_at > cupsJobTimeoutSecs then
      (some ⟨job.api_job_id, PrintJobStatus.failed,
        some "Job disappeared from CUPS queue"⟩, true)
    else (none, false)

/-- Non-terminal status changes update `last_status` on the first tracker
entry with the matching api job id (print_job.rs lines 750–759,
`iter_mut().find(...)`). -/
def updateFirst (tr : List InFlightJob) (id : Nat) (st : PrintJobStatus) :
    List InFlightJob :=
  match tr with
  | [] => []
  | j :: rest =>
    if j.api_job_id = id then { j with last_status := st } :: rest
    else j :: updateFirst rest id st

/-- Fold one snapshot entry's non-terminal update into the live tracker. -/
def applyNonTerminal (oracle : CupsOracle) (now : Nat)
    (tr : List InFlightJob) (job : InFlightJob) : List InFlightJob :=
  match checkJob oracle now job with
  | (some r, false) => updateFirst tr r.job_id r.status
  | _ => tr

/-- The status updates one cycle reports to the API, in snapshot order. -/
def cycleReports (oracle : CupsOracle) (now : Nat)
    (registry : List InFlightJob) : List Report :=
  registry.filterMap fun j => (checkJob oracle now j).1

/-- The `completed_ids` list accumulated during one cycle: api job ids of
snapshot entries whose check marked them for removal. -/
def cycleCompleted (oracle : CupsOracle) (now : Nat)
    (registry : List InFlightJob) : List Nat :=
  registry.filterMap fun j =>
    if (checkJob oracle now j).2 then some j.api_job_id else none

/-- One cycle of `job_status_checker_task`'s loop (print_job.rs lines
627–820): snapshot the registry, check every snapshot entry against CUPS,
report changes, update non-terminal `last_status` in place, and finally
remove every entry whose api job id was marked for removal (lines 808–819,
`retain`).  Returns the reports issued and the registry left for the next
cycle.  (The source's empty-snapshot `continue` and its skipping of the
`retain` when `completed_ids` is empty both coincide with this general
formula: an empty snapshot yields no reports, no marks, and an unchanged
registry.) -/
def statusCycle (oracle : CupsOracle) (now : Nat)
    (registry : List InFlightJob) : List Report × List InFlightJob :=
  (cycleReports oracle now registry,
    (registry.foldl (applyNonTerminal oracle now) registry).filter fun j =>
      decide (j.api_job_id ∉ cycleCompleted oracle now registry))

/-- Iterated status-checking cycles, each with its own CUPS observation and
clock value; all reports are concatenated. -/
def runCycles : List (CupsOracle × Nat) → List InFlightJob →
    List Report × List InFlightJob
  | [], registry => ([], registry)
  | (o, n) :: ps, registry =>
    let step := statusCycle o n registry
    let rest := runCycles ps step.2
    (step.1 ++ rest.1, rest.2)

/-- The api job ids present in a registry. -/
def registryIds (registry : List InFlightJob) : List Nat :=
  registry.map fun j => j.api_job_id

/-! ## Polling fetch and catch-up paths -/

/-- The in-flight skip test of the polling fetcher (print_job.rs lines
448–458): a fetched job is skipped when it carries a CUPS job id and a
`Queued` or `Processing` status. -/
def shouldSkipJob (j : PrintJob) : Bool :=
  j.cups_job_id.isSome
    && (j.status == some PrintJobStatus.queued
      || j.status == some PrintJobStatus.processing)

/-- The jobs a polling-fetch cycle passes to `process_print_job`
(print_job.rs lines 448–463): every fetched job not skipped. -/
def submittedJobs (jobs : List PrintJob) : List PrintJob :=
  jobs.filter fun j => !shouldSkipJob j

/-- The submission decision of `fetch_and_print_job_by_id` (print_job.rs
lines 477–525): fetch the job by id through the `lookupJob` oracle; a fetch
failure submits nothing, a job fetched as `is_completed` is skipped
("Job was already printed"), and any other job is handed to
`process_print_job`. -/
def fetchAndPrintDecision (lookupJob : Nat → Option PrintJob) (id : Nat) :
    Option PrintJob :=
  match lookupJob id with
  | none => none
  | some j => if j.is_completed then none else some j

/-- The catch-up path run on successful channel subscription
(websocket.rs `on_channel_subscription_succeeded`, lines 86–136): fetch the
pending (not-completed) job ids (`fetch_pending_job_ids`, print_job.rs lines
157–192 — the ids of every job in the server's `filter[is_completed]=false`
response), then for each id run `fetch_and_print_job_by_id`.  Returns the
jobs actually handed to submission. -/
def catchUpSubmissions (pending : List PrintJob)
    (lookupJob : Nat → Option PrintJob) : List PrintJob :=
  (pending.map fun j => j.id).filterMap (fetchAndPrintDecision lookupJob)

/-! ## Printer fallback in the submission path (print_job.rs lines 332–408) -/

/-- A printer as enumerated by the external `printers` crate (display name
and CUPS queue name). -/
structure LocalPrinter where
  name : String
  system_name : String
deriving DecidableEq, Repr

/-- The external crate's `get_printer_by_name`: first enumerated printer
whose display name or system name equals the requested name (print_job.rs
line 281 documents that it matches both). -/
def getPrinterByName (printers : List LocalPrinter) (nm : String) :
    Option LocalPrinter :=
  printers.find? fun p => p.name == nm || p.system_name == nm

/-- The printer-selection step of `process_print_job` (print_job.rs lines
344–357): use the resolved printer when it exists locally; otherwise
`get_printers().pop()` — the LAST enumerated printer — is substituted with a
warning, and the job hard-fails ("No printers available") only when the
enumeration is empty. -/
def choosePrinter (printers : List LocalPrinter) (requested : String) :
    Except String LocalPrinter :=
  match getPrinterByName printers requested with
  | some p => Except.ok p
  | none =>
    match printers.getLast? with
    | some d => Except.ok d
    | none => Except.error "No printers available"

/-- The outcome of a successful submission: the chosen printer, the CUPS job
id, the status reported to the API, and the in-flight entry registered. -/
structure SubmitOutcome where
  chosen : LocalPrinter
  cups_job_id : Nat
  reported : PrintJobStatus
  entry : InFlightJob
deriving DecidableEq, Repr

/-- The submission path of `process_print_job` from printer selection
onwards (print_job.rs lines 344–407; payload download, which precedes it,
is an independent step and not involved in the fallback): choose the
printer with fallback, print the file through the `printFile` oracle
(CUPS job id on success), report `Queued` to the API and register the
in-flight entry (keyed by the chosen printer's `system_name`,
`last_status := Queued`). -/
def processPrintJobSubmission (printers : List LocalPrinter)
    (printFile : String → Option Nat) (requested : String) (jobId : Nat)
    (now : Nat) : Except String SubmitOutcome :=
  match choosePrinter printers requested with
  | Except.error e => Except.error e
  | Except.ok p =>
    match printFile p.system_name with
    | none => Except.error "Failed to print"
    | some cupsId =>
      Except.ok
        { chosen := p
          cups_job_id := cupsId
          reported := PrintJobStatus.queued
          entry :=
            { api_job_id := jobId
              cups_job_id := cupsId
              printer_name := p.system_name
              submitted_at := now
              last_status := PrintJobStatus.queued } }

/-! ## Cancellation behaviour of the background loops -/

/-- What a loop's inter-iteration wait does once cancellation has (or has
not) been signalled. -/
inductive WaitOutcome where
  | exited
  | sleptFull
deriving DecidableEq, Repr

/-- A `tokio::select!` racing `cancel_token.cancelled()` against a sleep or
wait: with the token cancelled the loop returns immediately, otherwise the
full sleep elapses. -/
def selectCancelOrSleep (cancelled : Bool) : WaitOutcome :=
  if cancelled then WaitOutcome.exited else WaitOutcome.sleptFull

/-- The printer synchronizer loop's inter-iteration wait
(src/services/printer.rs lines 320–344): a bare
`time::sleep(interval * 60)` with no select and no cancellation token in the
task's signature — the full interval elapses whether or not cancellation was
signalled. -/
def printerCheckerWait (_cancelled : Bool) : WaitOutcome :=
  WaitOutcome.sleptFull

/-- The job-polling loop's inter-iteration wait (print_job.rs lines
559–565): select of cancellation against the interval sleep. -/
def jobCheckerWait (cancelled : Bool) : WaitOutcome :=
  selectCancelOrSleep cancelled

/-- The status-checking loop's top-of-loop wait (print_job.rs lines
628–634): select of cancellation against the 15s sleep. -/
def jobStatusCheckerWait (cancelled : Bool) : WaitOutcome :=
  selectCancelOrSleep cancelled

/-- The push listener's connected wait (websocket.rs lines 217–225): select
of cancellation against `wait_for_disconnect`. -/
def websocketConnectedWait (cancelled : Bool) : WaitOutcome :=
  selectCancelOrSleep cancelled

/-- The push listener's reconnect backoff (websocket.rs lines 240–246):
select of cancellation against the 5s sleep. -/
def websocketBackoffWait (cancelled : Bool) : WaitOutcome :=
  selectCancelOrSleep cancelled

/-! ## Concrete example data used in witnesses and counterexamples -/

/-- Example printer "A" with remote id 1. -/
def examplePA : Printer := ⟨"A", "A", none, "", "", "", ["A4"], some 1⟩

/-- Example printer "B" with remote id 2. -/
def examplePB : Printer := ⟨"B", "B", none, "", "", "", ["A4"], some 2⟩

/-- Example printer "C" with remote id 3. -/
def examplePC : Printer := ⟨"C", "C", none, "", "", "", ["A4"], some 3⟩

/-- Example local printer "HP-Office". -/
def exampleHP : LocalPrinter := ⟨"HP-Office", "HP-Office"⟩

/-- Example local printer "Canon". -/
def exampleCanon : LocalPrinter := ⟨"Canon", "Canon"⟩

/-- A pending remote job that was already submitted earlier: it carries a
local handle (`cups_job_id = some 5`) and non-terminal `Queued` status, and
is not yet completed. -/
def exampleInFlightPending : PrintJob :=
  ⟨7, 100, some 1, false, some PrintJobStatus.queued, some 5, none⟩

/-- A per-id fetch oracle that returns `exampleInFlightPending` for id 7. -/
def exampleLookup : Nat → Option PrintJob := fun i =>
  if i = 7 then some exampleInFlightPending else none

/-- A remote record carrying stable id "A" (id 9). -/
def exampleApiStable : ApiPrinter :=
  ⟨some 9, "Printer A", some "A", none, "inst", none, none, ["A4"],
    some true, some true⟩

/-- A legacy remote record (no stable id) sharing the display name
"Printer A" (id 4). -/
def exampleApiLegacy : ApiPrinter :=
  ⟨some 4, "Printer A", none, none, "inst", none, none, ["A4"],
    some true, some true⟩

/-- A locally discovered printer with stable id "A" and display name
"Printer A", not yet holding a remote id. -/
def exampleLocalA : Printer := ⟨"Printer A", "A", none, "", "", "", ["A4"], none⟩

/-- A pending job with id 11 (no local handle yet). -/
def exampleJob11 : PrintJob := ⟨11, 200, none, false, none, none, none⟩

/-- A pending job with id 12 (no local handle yet). -/
def exampleJob12 : PrintJob := ⟨12, 201, none, false, none, none, none⟩

/-- A per-id fetch oracle for the two pending example jobs. -/
def exampleCatchUpLookup : Nat → Option PrintJob := fun i =>
  if i = 11 then some exampleJob11
  else if i = 12 then some exampleJob12
  else none

/-- An in-flight registry entry for remote job 1, CUPS handle 5, submitted
at time 0 with `Queued` last reported. -/
def exampleInFlight1 : InFlightJob := ⟨1, 5, "HP-Office", 0, PrintJobStatus.queued⟩

/-- A second in-flight registry entry, remote job 2, CUPS handle 6. -/
def exampleInFlight2 : InFlightJob := ⟨2, 6, "HP-Office", 0, PrintJobStatus.queued⟩

/-- A CUPS observation oracle that reports handle 5 completed and still
sees handle 6 processing. -/
def exampleOracle : CupsOracle := fun _ cid =>
  if cid = 5 then some PrintJobStatus.completed
  else some PrintJobStatus.processing

/-- A CUPS observation oracle that knows no handles at all. -/
def exampleOracleLost : CupsOracle := fun _ _ => none

/-- A locally discovered printer with stable id "X" and display name "A",
not yet holding a remote id. -/
def examplePX : Printer := ⟨"A", "X", none, "", "", "", ["A4"], none⟩

/-- A legacy remote record: display name "A", no stable id, id 1. -/
def exampleLegacyRemote : ApiPrinter :=
  ⟨some 1, "A", none, none, "inst", none, none, ["A4"], some true, some true⟩

/-- A remote record with stable id "X" (id 5) and display name "A". -/
def exampleStableRemoteX : ApiPrinter :=
  ⟨some 5, "A", some "X", none, "inst", none, none, ["A4"], some true,
    some true⟩

/-- The example local discovery: the single printer keyed "X". -/
def exampleDisc : PMap := [("X", examplePX)]

/-- A create oracle on which every remote create fails. -/
def exampleOrcNone : String → Option Nat := fun _ => none

/-! ## Theorems -/

/-- C10: converting a local `Printer` into the `ApiPrinter` record used by
every remote create and update yields `media_sizes = ["A4"]` exactly when the
local list is empty and an unchanged copy otherwise, so the remote directory
never receives an empty `media_sizes` list. -/
theorem apiPrinter_media_sizes_never_empty (p : Printer) :
    (apiPrinterOfPrinter p).media_sizes
        = (if p.media_sizes.isEmpty then ["A4"] else p.media_sizes)
      ∧ (apiPrinterOfPrinter p).media_sizes ≠ [] := by
  refine ⟨rfl, ?_⟩
  by_cases h : p.media_sizes.isEmpty
  · simp [apiPrinterOfPrinter, h]
  · simp only [apiPrinterOfPrinter, h, if_false]
    simpa [List.isEmpty_iff] using h

/-- C2: in every synchronization pass, exactly those saved-map entries whose
stable id is absent from the current local printer set and whose remote id is
set are deleted remotely; for local printers {A,B} and synced map {A,B,C}
exactly C (remote id 3) is deleted; and a 404 response to a delete is treated
as success. -/
theorem removal_correctness :
    (∀ (saved local_printers : PMap) (d : Nat),
        d ∈ deleteCalls saved local_printers ↔
          ∃ e ∈ saved, List.lookup e.1 local_printers = none
            ∧ e.2.printer_id = some d)
    ∧ deleteCalls [("A", examplePA), ("B", examplePB), ("C", examplePC)]
        [("A", examplePA), ("B", examplePB)] = [3]
    ∧ deleteStatusResult 404 = Except.ok () := by
  refine ⟨?_, by decide, rfl⟩
  intro saved local_printers d
  simp only [deleteCalls, List.mem_filterMap]
  constructor
  · rintro ⟨e, he, hf⟩
    by_cases h : (List.lookup e.1 local_printers).isSome
    · simp [h] at hf
    · exact ⟨e, he, Option.not_isSome_iff_eq_none.mp h, by simpa [h] using hf⟩
  · rintro ⟨e, he, hnone, hid⟩
    exact ⟨e, he, by simp [hnone, hid]⟩

/-- C3: stable-id precedence — when a locally discovered printer's stable id
matches a remote record, its remote id is resolved from that record and the
printer is not flagged for the forced legacy update; the display-name
fallback and the saved-map fallback are never consulted. -/
theorem stable_id_precedence (apis : List ApiPrinter) (inst : String)
    (saved : PMap) (sn : String) (p : Printer) (a : ApiPrinter)
    (h : lookupSys apis inst sn = some a) :
    resolveId apis inst saved sn p = ({ p with printer_id := a.id }, false) := by
  simp [resolveId, h]

/-- Witness for C3 at a concrete input: the remote directory holds a record
with stable id "A" and id 9; the local printer keyed "A" resolves id 9 and is
not legacy-flagged, even though a legacy record shares its display name. -/
theorem stable_id_precedence_witness :
    lookupSys [exampleApiStable, exampleApiLegacy] "inst" "A"
        = some exampleApiStable
    ∧ resolveId [exampleApiStable, exampleApiLegacy] "inst" [] "A" exampleLocalA
        = ({ exampleLocalA with printer_id := exampleApiStable.id }, false) :=
  ⟨by decide,
    stable_id_precedence [exampleApiStable, exampleApiLegacy] "inst" [] "A"
      exampleLocalA exampleApiStable (by decide)⟩

/-- C7: in every polling fetch cycle, a fetched job is withheld from the
submission path exactly when it carries a local handle (`cups_job_id` set)
and a non-terminal `Queued` or `Processing` status; every other fetched job
is passed to submission. -/
theorem polling_skips_in_flight (jobs : List PrintJob) (j : PrintJob)
    (hmem : j ∈ jobs) :
    (j.cups_job_id.isSome = true
        ∧ (j.status = some PrintJobStatus.queued
          ∨ j.status = some PrintJobStatus.processing))
      ↔ j ∉ submittedJobs jobs := by
  simp only [submittedJobs, List.mem_filter, hmem, true_and, Bool.not_eq_true',
    shouldSkipJob]
  constructor
  · rintro ⟨h1, h2⟩
    simp only [h1, Bool.true_and]
    rcases h2 with h2 | h2 <;> simp [h2]
  · intro h
    by_cases h1 : j.cups_job_id.isSome
    · refine ⟨h1, ?_⟩
      simp only [h1, Bool.true_and, Bool.not_eq_false] at h
      rcases Bool.or_eq_true_iff.mp h with h2 | h2
      · exact Or.inl (by simpa using (beq_iff_eq.mp h2))
      · exact Or.inr (by simpa using (beq_iff_eq.mp h2))
    · simp only [Bool.not_eq_true] at h1
      simp [h1] at h

/-- Witness for C7 at a concrete input: in a fetch of two jobs, the
already-in-flight one (handle 5, status `Queued`) is skipped. -/
theorem polling_skips_in_flight_witness :
    exampleInFlightPending ∈ [exampleInFlightPending]
    ∧ ((exampleInFlightPending.cups_job_id.isSome = true
        ∧ (exampleInFlightPending.status = some PrintJobStatus.queued
          ∨ exampleInFlightPending.status = some PrintJobStatus.processing))
      ↔ exampleInFlightPending ∉ submittedJobs [exampleInFlightPending]) :=
  ⟨by decide,
    polling_skips_in_flight [exampleInFlightPending] exampleInFlightPending
      (by decide)⟩

/-- C9: of the four background loops, the job-polling loop, the
status-checking loop and the push listener's two waits race the broadcast
cancellation token against their sleeps and exit immediately once it is
signalled — but the printer synchronizer loop's wait
(src/services/printer.rs:320–344) is a bare sleep with no cancellation
token, so with cancellation signalled it still sleeps through the full
remaining interval. -/
theorem printer_loop_ignores_cancellation :
    printerCheckerWait true = WaitOutcome.sleptFull
    ∧ jobCheckerWait true = WaitOutcome.exited
    ∧ jobStatusCheckerWait true = WaitOutcome.exited
    ∧ websocketConnectedWait true = WaitOutcome.exited
    ∧ websocketBackoffWait true = WaitOutcome.exited := by
  decide

/-- C6 counterexample: with two local printers enumerated
(["HP-Office", "Canon"]) and a job addressed to the locally absent
"missing-printer", the substituted printer is "Canon" — `printers.pop()`
takes the LAST enumerated printer — not the first available printer
"HP-Office" the claim names. -/
theorem fallback_not_first_counterexample :
    getPrinterByName [exampleHP, exampleCanon] "missing-printer" = none
    ∧ choosePrinter [exampleHP, exampleCanon] "missing-printer"
        = Except.ok exampleCanon
    ∧ choosePrinter [exampleHP, exampleCanon] "missing-printer"
        ≠ Except.ok exampleHP := by
  decide

/-- C6 (amended): when the resolved target printer does not exist locally
the job is still submitted — the LAST enumerated local printer is
substituted (with a warning) rather than the job being dropped — and
submission hard-fails for a missing printer only when no local printers are
available at all; a job targeting "missing-printer" with only "HP-Office"
available is submitted to "HP-Office" and reported `Queued`. -/
theorem fallback_printer_substitution (printers : List LocalPrinter)
    (printFile : String → Option Nat) (requested : String) (jobId now : Nat)
    (hmiss : getPrinterByName printers requested = none) :
    (printers = [] →
      processPrintJobSubmission printers printFile requested jobId now
        = Except.error "No printers available")
    ∧ (∀ d, printers.getLast? = some d →
        choosePrinter printers requested = Except.ok d
        ∧ ∀ cid, printFile d.system_name = some cid →
            processPrintJobSubmission printers printFile requested jobId now
              = Except.ok
                  ⟨d, cid, PrintJobStatus.queued,
                    ⟨jobId, cid, d.system_name, now, PrintJobStatus.queued⟩⟩) := by
  constructor
  · intro hnil
    subst hnil
    simp [processPrintJobSubmission, choosePrinter, hmiss]
  · intro d hd
    have hch : choosePrinter printers requested = Except.ok d := by
      simp [choosePrinter, hmiss, hd]
    refine ⟨hch, fun cid hcid => ?_⟩
    simp [processPrintJobSubmission, hch, hcid]

/-- Witness for C6 (amended) at the claim's own example: a job (id 42)
addressed to "missing-printer" with only "HP-Office" enumerated is submitted
to "HP-Office" (CUPS id 7) and `Queued` is reported. -/
theorem fallback_printer_substitution_witness :
    getPrinterByName [exampleHP] "missing-printer" = none
    ∧ processPrintJobSubmission [exampleHP] (fun _ => some 7)
        "missing-printer" 42 0
      = Except.ok
          ⟨exampleHP, 7, PrintJobStatus.queued,
            ⟨42, 7, "HP-Office", 0, PrintJobStatus.queued⟩⟩ :=
  ⟨by decide,
    ((fallback_printer_substitution [exampleHP] (fun _ => some 7)
      "missing-printer" 42 0 (by decide)).2 exampleHP (by decide)).2 7 (by decide)⟩

/-- `fetch_and_print_job_by_id` submits exactly the jobs whose fetch
succeeds and whose fetched record is not completed. -/
lemma fetchAndPrintDecision_eq_some (lookupJob : Nat → Option PrintJob)
    (i : Nat) (j : PrintJob) :
    fetchAndPrintDecision lookupJob i = some j
      ↔ lookupJob i = some j ∧ j.is_completed = false := by
  constructor
  · intro h
    cases hl : lookupJob i with
    | none => simp [fetchAndPrintDecision, hl] at h
    | some x =>
      simp only [fetchAndPrintDecision, hl] at h
      by_cases hc : x.is_completed = true
      · rw [if_pos hc] at h; exact Option.noConfusion h
      · rw [if_neg hc] at h
        cases Option.some.inj h
        exact ⟨rfl, by simpa using hc⟩
  · rintro ⟨hl, hc⟩
    simp [fetchAndPrintDecision, hl, hc]

lemma catchUp_mem (pending : List PrintJob) (lookupJob : Nat → Option PrintJob)
    (hid : ∀ i j, lookupJob i = some j → j.id = i) (j : PrintJob) :
    j ∈ catchUpSubmissions pending lookupJob
      ↔ j.id ∈ pending.map (fun x => x.id) ∧ lookupJob j.id = some j
          ∧ j.is_completed = false := by
  unfold catchUpSubmissions
  rw [List.mem_filterMap]
  constructor
  · rintro ⟨i, hi, hf⟩
    rcases (fetchAndPrintDecision_eq_some lookupJob i j).mp hf with ⟨hl, hc⟩
    have hji : j.id = i := hid i j hl
    subst hji
    exact ⟨hi, hl, hc⟩
  · rintro ⟨hi, hl, hc⟩
    exact ⟨j.id, hi, (fetchAndPrintDecision_eq_some lookupJob j.id j).mpr ⟨hl, hc⟩⟩

lemma catchUp_countP_le_one (f : Nat → Option PrintJob)
    (hf : ∀ i j, f i = some j → j.id = i) :
    ∀ l : List Nat, l.Nodup → ∀ idv : Nat,
      ((l.filterMap f).countP fun j => j.id == idv) ≤ 1 := by
  intro l
  induction l with
  | nil => intro _ idv; simp
  | cons a t ih =>
    intro hnd idv
    cases hfa : f a with
    | none => simpa [List.filterMap_cons, hfa] using ih (List.Nodup.of_cons hnd) idv
    | some j =>
      simp only [List.filterMap_cons, hfa, List.countP_cons]
      by_cases hj : (j.id == idv) = true
      · have hji : j.id = a := hf a j hfa
        have hidv : a = idv := by rw [← hji]; exact beq_iff_eq.mp hj
        have hnotin : idv ∉ t := by
          rw [← hidv]; exact (List.nodup_cons.mp hnd).1
        have hzero : ((t.filterMap f).countP fun x => x.id == idv) = 0 := by
          rw [List.countP_eq_zero]
          intro x hx hxb
          rcases List.mem_filterMap.mp hx with ⟨i, hit, hfi⟩
          have hxi : x.id = i := hf i x hfi
          have hieq : i = idv := by rw [← hxi]; exact beq_iff_eq.mp hxb
          exact hnotin (hieq ▸ hit)
        simp [hzero, hj]
      · simpa [hj] using ih (List.Nodup.of_cons hnd) idv

/-- C8 counterexample: the catch-up path does NOT skip a pending job that
was already submitted earlier.  The job (id 7) carries a local handle
(`cups_job_id = some 5`) and a non-terminal `Queued` status, yet the
catch-up run hands it to submission again — `fetch_and_print_job_by_id`
checks only `is_completed`. -/
theorem catch_up_resubmits_in_flight :
    exampleInFlightPending.cups_job_id.isSome = true
    ∧ exampleInFlightPending.status = some PrintJobStatus.queued
    ∧ exampleInFlightPending.is_completed = false
    ∧ catchUpSubmissions [exampleInFlightPending] exampleLookup
        = [exampleInFlightPending] := by
  decide

/-- C8 (amended): on successful push-channel subscription the one-shot
catch-up fetch retrieves the pending (not-completed) job ids and hands each
to submission at most once per run — exactly those jobs whose per-id fetch
succeeds and whose fetched record is not completed.  A pending job that was
already submitted earlier (local handle set, non-terminal status) is NOT
skipped: only `is_completed` is checked, the in-flight skip exists only in
the polling path. -/
theorem catch_up_exactly_once (pending : List PrintJob)
    (lookupJob : Nat → Option PrintJob)
    (hids : (pending.map fun j => j.id).Nodup)
    (hid : ∀ i j, lookupJob i = some j → j.id = i) :
    (∀ j, j ∈ catchUpSubmissions pending lookupJob
        ↔ j.id ∈ pending.map (fun x => x.id) ∧ lookupJob j.id = some j
            ∧ j.is_completed = false)
    ∧ ∀ idv : Nat,
        ((catchUpSubmissions pending lookupJob).countP fun j => j.id == idv)
          ≤ 1 :=
  ⟨catchUp_mem pending lookupJob hid, fun idv => by
    have hf : ∀ i j, fetchAndPrintDecision lookupJob i = some j → j.id = i := by
      intro i j h
      rcases (fetchAndPrintDecision_eq_some lookupJob i j).mp h with ⟨hl, _⟩
      exact hid i j hl
    exact
      catchUp_countP_le_one (fetchAndPrintDecision lookupJob) hf
        (pending.map fun j => j.id) hids idv⟩

/-- Witness for C8 (amended) at the spec's catch-up scenario: two pending
remote jobs and zero in-flight entries — both are submitted, each exactly
once. -/
theorem catch_up_exactly_once_witness :
    ([exampleJob11, exampleJob12].map fun j => j.id).Nodup
    ∧ catchUpSubmissions [exampleJob11, exampleJob12] exampleCatchUpLookup
        = [exampleJob11, exampleJob12]
    ∧ ((∀ j, j ∈ catchUpSubmissions [exampleJob11, exampleJob12]
            exampleCatchUpLookup
          ↔ j.id ∈ [exampleJob11, exampleJob12].map (fun x => x.id)
              ∧ exampleCatchUpLookup j.id = some j ∧ j.is_completed = false)
        ∧ ∀ idv : Nat,
            ((catchUpSubmissions [exampleJob11, exampleJob12]
                exampleCatchUpLookup).countP fun j => j.id == idv) ≤ 1) :=
  ⟨by decide, by decide,
    catch_up_exactly_once [exampleJob11, exampleJob12] exampleCatchUpLookup
      (by decide)
      (by
        intro i j h
        unfold exampleCatchUpLookup at h
        split at h
        · rename_i h11
          cases Option.some.inj h
          rw [h11]
          decide
        · rename_i h11
          split at h
          · rename_i h12
            cases Option.some.inj h
            rw [h12]
            decide
          · exact Option.noConfusion h)⟩

/-! ### Status-checker cycle lemmas -/

/-- Every report issued by a check carries the checked entry's api job id. -/
lemma checkJob_report_id (o : CupsOracle) (n : Nat) (j : InFlightJob)
    (r : Report) (h : (checkJob o n j).1 = some r) :
    r.job_id = j.api_job_id := by
  cases ho : o j.printer_name j.cups_job_id with
  | some st =>
    simp only [checkJob, ho] at h
    by_cases hst : st = j.last_status
    · rw [if_pos hst] at h; exact Option.noConfusion h
    · rw [if_neg hst] at h
      cases Option.some.inj h
      rfl
  | none =>
    simp only [checkJob, ho] at h
    by_cases ht : n - j.submitted_at > cupsJobTimeoutSecs
    · rw [if_pos ht] at h
      cases Option.some.inj h
      rfl
    · rw [if_neg ht] at h; exact Option.noConfusion h

/-- An entry is marked for removal exactly when its report is terminal. -/
lemma checkJob_snd_of_report (o : CupsOracle) (n : Nat) (j : InFlightJob)
    (r : Report) (h : (checkJob o n j).1 = some r) :
    (checkJob o n j).2 = r.status.is_terminal := by
  cases ho : o j.printer_name j.cups_job_id with
  | some st =>
    simp only [checkJob, ho] at h ⊢
    by_cases hst : st = j.last_status
    · rw [if_pos hst] at h; exact Option.noConfusion h
    · rw [if_neg hst] at h ⊢
      cases Option.some.inj h
      rfl
  | none =>
    simp only [checkJob, ho] at h ⊢
    by_cases ht : n - j.submitted_at > cupsJobTimeoutSecs
    · rw [if_pos ht] at h ⊢
      cases Option.some.inj h
      rfl
    · rw [if_neg ht] at h; exact Option.noConfusion h

/-- `updateFirst` touches only `last_status`: the id sequence is unchanged. -/
lemma updateFirst_ids (tr : List InFlightJob) (id : Nat)
    (st : PrintJobStatus) :
    registryIds (updateFirst tr id st) = registryIds tr := by
  induction tr with
  | nil => rfl
  | cons k rest ih =>
    unfold updateFirst
    by_cases hk : k.api_job_id = id
    · rw [if_pos hk]; rfl
    · rw [if_neg hk]
      simp only [registryIds, List.map_cons] at ih ⊢
      rw [ih]

/-- One tracker update step preserves the id sequence. -/
lemma applyNonTerminal_ids (o : CupsOracle) (n : Nat)
    (tr : List InFlightJob) (job : InFlightJob) :
    registryIds (applyNonTerminal o n tr job) = registryIds tr := by
  unfold applyNonTerminal
  rcases hc : checkJob o n job with ⟨fst, snd⟩
  cases fst with
  | none => rfl
  | some r =>
    cases snd with
    | false => exact updateFirst_ids tr r.job_id r.status
    | true => rfl

/-- The whole in-place update pass preserves the id sequence. -/
lemma foldl_applyNonTerminal_ids (o : CupsOracle) (n : Nat)
    (reg : List InFlightJob) :
    ∀ tr, registryIds (reg.foldl (applyNonTerminal o n) tr) = registryIds tr := by
  induction reg with
  | nil => intro tr; rfl
  | cons a t ih =>
    intro tr
    rw [List.foldl_cons, ih (applyNonTerminal o n tr a), applyNonTerminal_ids]

/-- A member of the post-cycle registry was present (by id) in the snapshot
and was not marked for removal. -/
lemma mem_registry_of_mem_cycle (o : CupsOracle) (n : Nat)
    (reg : List InFlightJob) (j' : InFlightJob)
    (h : j' ∈ (statusCycle o n reg).2) :
    j'.api_job_id ∈ registryIds reg
      ∧ j'.api_job_id ∉ cycleCompleted o n reg := by
  unfold statusCycle at h
  rcases List.mem_filter.mp h with ⟨htr, hdec⟩
  refine ⟨?_, of_decide_eq_true hdec⟩
  have hmm : j'.api_job_id ∈ registryIds (reg.foldl (applyNonTerminal o n) reg) := by
    unfold registryIds
    exact List.mem_map_of_mem _ htr
  rwa [foldl_applyNonTerminal_ids] at hmm

/-- Every report of a cycle comes from some snapshot entry's check. -/
lemma cycleReports_mem (o : CupsOracle) (n : Nat) (reg : List InFlightJob)
    (r : Report) (h : r ∈ cycleReports o n reg) :
    ∃ j ∈ reg, (checkJob o n j).1 = some r := by
  unfold cycleReports at h
  exact List.mem_filterMap.mp h

/-- A terminal report's job id is marked for removal in the same cycle. -/
lemma terminal_report_completed (o : CupsOracle) (n : Nat)
    (reg : List InFlightJob) (r : Report) (h : r ∈ cycleReports o n reg)
    (ht : r.status.is_terminal = true) :
    r.job_id ∈ cycleCompleted o n reg := by
  rcases cycleReports_mem o n reg r h with ⟨j, hj, hc⟩
  have hsnd : (checkJob o n j).2 = true := by
    rw [checkJob_snd_of_report o n j r hc, ht]
  have hid : r.job_id = j.api_job_id := checkJob_report_id o n j r hc
  unfold cycleCompleted
  exact List.mem_filterMap.mpr ⟨j, hj, by simp [hsnd, hid]⟩

/-- A job id marked for removal is absent from the post-cycle registry. -/
lemma completed_not_in_next (o : CupsOracle) (n : Nat)
    (reg : List InFlightJob) (J : Nat) (h : J ∈ cycleCompleted o n reg) :
    J ∉ registryIds (statusCycle o n reg).2 := by
  intro hmem
  unfold registryIds at hmem
  rcases List.mem_map.mp hmem with ⟨j', hj', hid⟩
  rcases mem_registry_of_mem_cycle o n reg j' hj' with ⟨_, hnot⟩
  exact hnot (hid ▸ h)

/-- A job id absent from the registry is never reported by a cycle and is
still absent afterwards. -/
lemma absent_cycle (o : CupsOracle) (n : Nat) (reg : List InFlightJob)
    (J : Nat) (h : J ∉ registryIds reg) :
    (∀ r ∈ (statusCycle o n reg).1, r.job_id ≠ J)
    ∧ J ∉ registryIds (statusCycle o n reg).2 := by
  constructor
  · intro r hr hEq
    rcases cycleReports_mem o n reg r hr with ⟨j, hj, hc⟩
    have hid : r.job_id = j.api_job_id := checkJob_report_id o n j r hc
    apply h
    rw [← hEq, hid]
    unfold registryIds
    exact List.mem_map_of_mem _ hj
  · intro hmem
    rcases List.mem_map.mp hmem with ⟨j', hj', hid⟩
    rcases mem_registry_of_mem_cycle o n reg j' hj' with ⟨hin, _⟩
    exact h (hid ▸ hin)

/-- A job id absent from the registry is never reported by any number of
further cycles. -/
lemma absent_runCycles (J : Nat) :
    ∀ (ps : List (CupsOracle × Nat)) (reg : List InFlightJob),
      J ∉ registryIds reg →
        ∀ r ∈ (runCycles ps reg).1, r.job_id ≠ J := by
  intro ps
  induction ps with
  | nil =>
    intro reg _ r hr
    simp [runCycles] at hr
  | cons p t ih =>
    obtain ⟨o, n⟩ := p
    intro reg h r hr
    simp only [runCycles, List.mem_append] at hr
    cases hr with
    | inl hr => exact (absent_cycle o n reg J h).1 r hr
    | inr hr =>
      exact ih (statusCycle o n reg).2 (absent_cycle o n reg J h).2 r hr

/-- C4: once the status-checking loop reports a terminal status for an
in-flight job, that job's entry is removed from the registry at the end of
the cycle and no status is ever reported for it by any later cycle — in
particular a job reported `Completed` is never subsequently reported
`Processing`. -/
theorem status_monotonicity (o : CupsOracle) (n : Nat)
    (reg : List InFlightJob) (r : Report)
    (hrep : r ∈ (statusCycle o n reg).1)
    (hterm : r.status.is_terminal = true) :
    (∀ j ∈ (statusCycle o n reg).2, j.api_job_id ≠ r.job_id)
    ∧ ∀ (ps : List (CupsOracle × Nat)),
        ∀ r' ∈ (runCycles ps (statusCycle o n reg).2).1,
          r'.job_id ≠ r.job_id := by
  have hcomp : r.job_id ∈ cycleCompleted o n reg :=
    terminal_report_completed o n reg r hrep hterm
  have hout : r.job_id ∉ registryIds (statusCycle o n reg).2 :=
    completed_not_in_next o n reg r.job_id hcomp
  constructor
  · intro j hj hEq
    apply hout
    rw [← hEq]
    unfold registryIds
    exact List.mem_map_of_mem _ hj
  · intro ps r' hr'
    exact absent_runCycles r.job_id ps _ hout r' hr'

/-- Witness for C4 at a concrete input: registry holding job 1 (handle 5,
last status `Queued`), the CUPS oracle reporting handle 5 `Completed` at
time 0 — the `Completed` report is issued, the entry is removed, and no
later cycle reports job 1. -/
theorem status_monotonicity_witness :
    ((⟨1, PrintJobStatus.completed, none⟩ : Report)
        ∈ (statusCycle exampleOracle 0 [exampleInFlight1]).1)
    ∧ PrintJobStatus.completed.is_terminal = true
    ∧ ((∀ j ∈ (statusCycle exampleOracle 0 [exampleInFlight1]).2,
          j.api_job_id ≠ 1)
        ∧ ∀ (ps : List (CupsOracle × Nat)),
            ∀ r' ∈ (runCycles ps
                (statusCycle exampleOracle 0 [exampleInFlight1]).2).1,
              r'.job_id ≠ 1) :=
  ⟨by decide, by decide,
    status_monotonicity exampleOracle 0 [exampleInFlight1]
      ⟨1, PrintJobStatus.completed, none⟩ (by decide) (by decide)⟩

/-- An entry whose id is not the updated one survives `updateFirst`. -/
lemma mem_updateFirst_of_ne (tr : List InFlightJob) (id : Nat)
    (st : PrintJobStatus) (j : InFlightJob) (hj : j ∈ tr)
    (hne : j.api_job_id ≠ id) : j ∈ updateFirst tr id st := by
  induction tr with
  | nil => cases hj
  | cons k rest ih =>
    unfold updateFirst
    by_cases hk : k.api_job_id = id
    · rw [if_pos hk]
      rcases List.mem_cons.mp hj with hEq | hmem
      · exact absurd hk (hEq ▸ hne)
      · exact List.mem_cons_of_mem _ hmem
    · rw [if_neg hk]
      rcases List.mem_cons.mp hj with hEq | hmem
      · exact hEq ▸ List.mem_cons_self _ _
      · exact List.mem_cons_of_mem _ (ih hmem)

/-- An entry survives the whole in-place update pass when no snapshot report
targets its id. -/
lemma mem_foldl_applyNonTerminal (o : CupsOracle) (n : Nat) (j : InFlightJob) :
    ∀ (l tr : List InFlightJob), j ∈ tr →
      (∀ job ∈ l, ∀ r : Report, (checkJob o n job).1 = some r →
        r.job_id ≠ j.api_job_id) →
      j ∈ l.foldl (applyNonTerminal o n) tr := by
  intro l
  induction l with
  | nil => intro tr hj _; exact hj
  | cons a t ih =>
    intro tr hj hsafe
    rw [List.foldl_cons]
    apply ih
    · unfold applyNonTerminal
      rcases hc : checkJob o n a with ⟨fst, snd⟩
      cases fst with
      | none => exact hj
      | some r =>
        cases snd with
        | false =>
          apply mem_updateFirst_of_ne tr r.job_id r.status j hj
          intro hEq
          exact hsafe a (List.mem_cons_self a t) r (by rw [hc]) hEq.symm
        | true => exact hj
    · intro job hjob r hr
      exact hsafe job (List.mem_cons_of_mem a hjob) r hr

/-- The reports of a cycle over a cons: the head's report (if any) followed
by the tail's reports. -/
lemma cycleReports_cons (o : CupsOracle) (n : Nat) (a : InFlightJob)
    (t : List InFlightJob) :
    cycleReports o n (a :: t)
      = ((checkJob o n a).1).toList ++ cycleReports o n t := by
  unfold cycleReports
  rw [List.filterMap_cons]
  cases (checkJob o n a).1 <;> simp

/-- With distinct api job ids in the snapshot, the reports carrying a given
entry's id are exactly that entry's own report. -/
lemma cycleReports_filter_eq (o : CupsOracle) (n : Nat) :
    ∀ (reg : List InFlightJob) (j : InFlightJob), j ∈ reg →
      (registryIds reg).Nodup →
      ((cycleReports o n reg).filter fun r => r.job_id == j.api_job_id)
        = ((checkJob o n j).1).toList := by
  intro reg
  induction reg with
  | nil => intro j hj; cases hj
  | cons a t ih =>
    intro j hj hnd
    have hnd' : (registryIds t).Nodup := by
      simp only [registryIds, List.map_cons, List.nodup_cons] at hnd
      exact hnd.2
    have hnotin : a.api_job_id ∉ registryIds t := by
      simp only [registryIds, List.map_cons, List.nodup_cons] at hnd
      exact hnd.1
    have hrest : ∀ J : Nat, J ∉ registryIds t →
        ((cycleReports o n t).filter fun r => r.job_id == J) = [] := by
      intro J hJ
      rw [List.filter_eq_nil_iff]
      intro r hr hb
      rcases cycleReports_mem o n t r hr with ⟨job, hjob, hcj⟩
      have hrid : r.job_id = job.api_job_id := checkJob_report_id o n job r hcj
      apply hJ
      have hJid : job.api_job_id = J := by rw [← hrid]; exact beq_iff_eq.mp hb
      rw [← hJid]
      unfold registryIds
      exact List.mem_map_of_mem _ hjob
    rcases List.mem_cons.mp hj with hEq | hmem
    · subst hEq
      rw [cycleReports_cons, List.filter_append]
      cases hca : (checkJob o n j).1 with
      | none =>
        simpa using hrest j.api_job_id hnotin
      | some b =>
        have hbid : b.job_id = j.api_job_id := checkJob_report_id o n j b hca
        simp [hbid, hrest j.api_job_id hnotin]
    · have hane : a.api_job_id ≠ j.api_job_id := by
        intro hEq2
        apply hnotin
        rw [hEq2]
        unfold registryIds
        exact List.mem_map_of_mem _ hmem
      rw [cycleReports_cons, List.filter_append]
      cases hca : (checkJob o n a).1 with
      | none =>
        simpa using ih j hmem hnd'
      | some b =>
        have hbid : b.job_id = a.api_job_id := checkJob_report_id o n a b hca
        have hbne : (b.job_id == j.api_job_id) = false := by
          simp [hbid, hane]
        simpa [hbne] using ih j hmem hnd'

/-- C5: for an in-flight job whose local handle the spooler does not know,
the status checker takes no terminal action while the job's age is at most
the 300-second threshold (no report is issued for it and its entry stays in
the registry); once the age exceeds the threshold, the cycle reports the job
`Failed` with the explanatory message exactly once, removes its entry, and
no later cycle ever reports it again. -/
theorem timeout_failure (o : CupsOracle) (n : Nat) (reg : List InFlightJob)
    (j : InFlightJob) (hmem : j ∈ reg) (hnodup : (registryIds reg).Nodup)
    (hnone : o j.printer_name j.cups_job_id = none) :
    (n - j.submitted_at ≤ cupsJobTimeoutSecs →
        (∀ r ∈ (statusCycle o n reg).1, r.job_id ≠ j.api_job_id)
        ∧ j ∈ (statusCycle o n reg).2)
    ∧ (n - j.submitted_at > cupsJobTimeoutSecs →
        ((statusCycle o n reg).1.filter fun r => r.job_id == j.api_job_id)
            = [⟨j.api_job_id, PrintJobStatus.failed,
                some "Job disappeared from CUPS queue"⟩]
        ∧ j.api_job_id ∉ registryIds (statusCycle o n reg).2
        ∧ ∀ (ps : List (CupsOracle × Nat)),
            ∀ r' ∈ (runCycles ps (statusCycle o n reg).2).1,
              r'.job_id ≠ j.api_job_id) := by
  have hinj : ∀ x ∈ reg, ∀ y ∈ reg,
      x.api_job_id = y.api_job_id → x = y := by
    intro x hx y hy hxy
    exact List.inj_on_of_nodup_map hnodup hx hy hxy
  constructor
  · intro hle
    have hcj : checkJob o n j = (none, false) := by
      unfold checkJob
      rw [hnone, if_neg (Nat.not_lt.mpr hle)]
    constructor
    · intro r hr hEq
      rcases cycleReports_mem o n reg r hr with ⟨job, hjob, hcr⟩
      have hrid : r.job_id = job.api_job_id := checkJob_report_id o n job r hcr
      have hjj : job = j := hinj job hjob j hmem (by rw [← hrid, hEq])
      rw [hjj, hcj] at hcr
      exact Option.noConfusion hcr
    · unfold statusCycle
      apply List.mem_filter.mpr
      constructor
      · apply mem_foldl_applyNonTerminal o n j reg reg hmem
        intro job hjob r hr hEq
        have hrid : r.job_id = job.api_job_id := checkJob_report_id o n job r hr
        have hjj : job = j := hinj job hjob j hmem (by rw [← hrid, hEq])
        rw [hjj, hcj] at hr
        exact Option.noConfusion hr
      · apply decide_eq_true
        intro hcm
        rcases List.mem_filterMap.mp hcm with ⟨job, hjob, hif⟩
        by_cases hsnd : (checkJob o n job).2 = true
        · rw [if_pos hsnd] at hif
          have hjj : job = j :=
            hinj job hjob j hmem (Option.some.inj hif)
          rw [hjj, hcj] at hsnd
          exact Bool.noConfusion hsnd
        · rw [if_neg hsnd] at hif
          exact Option.noConfusion hif
  · intro hgt
    have hcj : checkJob o n j =
        (some ⟨j.api_job_id, PrintJobStatus.failed,
          some "Job disappeared from CUPS queue"⟩, true) := by
      unfold checkJob
      rw [hnone, if_pos hgt]
    have hcomp : j.api_job_id ∈ cycleCompleted o n reg := by
      unfold cycleCompleted
      exact List.mem_filterMap.mpr ⟨j, hmem, by rw [hcj]; simp⟩
    have hout : j.api_job_id ∉ registryIds (statusCycle o n reg).2 :=
      completed_not_in_next o n reg j.api_job_id hcomp
    refine ⟨?_, hout, fun ps r' hr' => absent_runCycles j.api_job_id ps _ hout r' hr'⟩
    have := cycleReports_filter_eq o n reg j hmem hnodup
    rw [hcj] at this
    exact this

/-- Witness for C5 at a concrete input: job 1 (handle 5, submitted at 0) is
unknown to the CUPS oracle; at time 400 (> 300s threshold) the cycle issues
the single `Failed` report with the explanatory message, removes the entry,
and later cycles stay silent about it. -/
theorem timeout_failure_witness :
    exampleInFlight1 ∈ [exampleInFlight1, exampleInFlight2]
    ∧ (registryIds [exampleInFlight1, exampleInFlight2]).Nodup
    ∧ exampleOracleLost exampleInFlight1.printer_name
        exampleInFlight1.cups_job_id = none
    ∧ ((400 - exampleInFlight1.submitted_at ≤ cupsJobTimeoutSecs →
        (∀ r ∈ (statusCycle exampleOracleLost 400
              [exampleInFlight1, exampleInFlight2]).1,
            r.job_id ≠ exampleInFlight1.api_job_id)
        ∧ exampleInFlight1 ∈ (statusCycle exampleOracleLost 400
              [exampleInFlight1, exampleInFlight2]).2)
      ∧ (400 - exampleInFlight1.submitted_at > cupsJobTimeoutSecs →
        ((statusCycle exampleOracleLost 400
              [exampleInFlight1, exampleInFlight2]).1.filter
            fun r => r.job_id == exampleInFlight1.api_job_id)
            = [⟨exampleInFlight1.api_job_id, PrintJobStatus.failed,
                some "Job disappeared from CUPS queue"⟩]
        ∧ exampleInFlight1.api_job_id
            ∉ registryIds (statusCycle exampleOracleLost 400
                [exampleInFlight1, exampleInFlight2]).2
        ∧ ∀ (ps : List (CupsOracle × Nat)),
            ∀ r' ∈ (runCycles ps (statusCycle exampleOracleLost 400
                [exampleInFlight1, exampleInFlight2]).2).1,
              r'.job_id ≠ exampleInFlight1.api_job_id)) :=
  ⟨by decide, by decide, by decide,
    timeout_failure exampleOracleLost 400 [exampleInFlight1, exampleInFlight2]
      exampleInFlight1 (by decide) (by decide) (by decide)⟩

/-! ### Idempotent-sync lemmas -/

/-- Looking a key up in a key-preserving entry map. -/
lemma lookup_entry_map (f : String → Printer → Printer) (l : PMap)
    (k : String) :
    List.lookup k (l.map fun e => (e.1, f e.1 e.2))
      = (List.lookup k l).map (f k) := by
  induction l with
  | nil => rfl
  | cons e t ih =>
    obtain ⟨k0, v0⟩ := e
    simp only [List.map_cons, List.lookup_cons]
    cases hk : (k == k0) with
    | true =>
      have hkk : k = k0 := beq_iff_eq.mp hk
      subst hkk
      rfl
    | false => exact ih

/-- With distinct keys, looking up a member entry's key returns its value. -/
lemma lookup_self_of_nodup (l : PMap) (e : String × Printer) (he : e ∈ l)
    (hnd : (pmapKeys l).Nodup) : List.lookup e.1 l = some e.2 := by
  induction l with
  | nil => cases he
  | cons a t ih =>
    obtain ⟨k0, v0⟩ := a
    have hnd' : (pmapKeys t).Nodup := by
      simp only [pmapKeys, List.map_cons, List.nodup_cons] at hnd
      exact hnd.2
    have hnotin : k0 ∉ pmapKeys t := by
      simp only [pmapKeys, List.map_cons, List.nodup_cons] at hnd
      exact hnd.1
    rcases List.mem_cons.mp he with hEq | hmem
    · subst hEq
      simp [List.lookup_cons]
    · have hne : (e.1 == k0) = false := by
        rw [beq_eq_false_iff_ne]
        intro hEq2
        apply hnotin
        rw [← hEq2]
        unfold pmapKeys
        exact List.mem_map_of_mem _ hmem
      simp only [List.lookup_cons, hne]
      exact ih hmem hnd'

/-- `mergeSavedIds` as a key-preserving entry map. -/
lemma mergeSavedIds_eq_map (disc saved : PMap) :
    mergeSavedIds disc saved
      = disc.map fun e => (e.1, mergeIdFn saved e.1 e.2) := by
  unfold mergeSavedIds mergeIdFn setId
  apply List.map_congr_left
  intro e _
  cases List.lookup e.1 saved <;> rfl

/-- The create loop as a key-preserving entry map. -/
lemma createdMap_eq_map (createResult : String → Option Nat) (m : PMap) :
    createdMap createResult m
      = m.map fun e => (e.1, createFn createResult e.1 e.2) := by
  unfold createdMap applyCreate createFn setId
  apply List.map_congr_left
  intro e _
  by_cases h : e.2.printer_id.isNone = true
  · rw [if_pos h, if_pos h]
    cases createResult e.1 <;> rfl
  · rw [if_neg h, if_neg h]

/-- The synchronization pass's updated map, entry by entry. -/
lemma syncPass_fst_eq (apis : List ApiPrinter) (inst : String)
    (orc : String → Option Nat) (disc saved : PMap) :
    (syncPass apis inst orc disc saved).1
      = disc.map fun e => (e.1, passFn apis inst orc saved e.1 e.2) := by
  show createdMap orc
      (matchedMap apis inst saved (mergeSavedIds disc saved))
    = disc.map fun e => (e.1, passFn apis inst orc saved e.1 e.2)
  rw [mergeSavedIds_eq_map, createdMap_eq_map]
  unfold matchedMap
  rw [List.map_map, List.map_map]
  rfl

/-- A synchronization pass leaves the key sequence of the map unchanged. -/
lemma syncPass_keys (apis : List ApiPrinter) (inst : String)
    (orc : String → Option Nat) (disc saved : PMap) :
    pmapKeys (syncPass apis inst orc disc saved).1 = pmapKeys disc := by
  rw [syncPass_fst_eq]
  unfold pmapKeys
  rw [List.map_map]
  rfl

/-- `mergeIdFn` only changes the remote id. -/
lemma mergeIdFn_shape (saved : PMap) (k : String) (p : Printer) :
    ∃ i, mergeIdFn saved k p = setId p i := by
  unfold mergeIdFn
  cases List.lookup k saved with
  | some sp => exact ⟨sp.printer_id, rfl⟩
  | none => exact ⟨p.printer_id, rfl⟩

/-- Remote-id resolution only changes the remote id. -/
lemma resolveFst_shape (apis : List ApiPrinter) (inst : String) (saved : PMap)
    (k : String) (p : Printer) :
    ∃ i, (resolveId apis inst saved k p).1 = setId p i := by
  unfold resolveId
  cases lookupSys apis inst k with
  | some a => exact ⟨a.id, rfl⟩
  | none =>
    cases lookupByName apis inst p.name with
    | some a => exact ⟨a.id, rfl⟩
    | none =>
      cases List.lookup k saved with
      | some sp => exact ⟨sp.printer_id, rfl⟩
      | none => exact ⟨p.printer_id, rfl⟩

/-- The create step only changes the remote id. -/
lemma createFn_shape (orc : String → Option Nat) (k : String) (p : Printer) :
    ∃ i, createFn orc k p = setId p i := by
  unfold createFn
  by_cases h : p.printer_id.isNone = true
  · rw [if_pos h]
    cases orc k with
    | some i => exact ⟨some i, rfl⟩
    | none => exact ⟨p.printer_id, rfl⟩
  · rw [if_neg h]
    exact ⟨p.printer_id, rfl⟩

/-- A whole pass only changes a discovered printer's remote id. -/
lemma passFn_shape (apis : List ApiPrinter) (inst : String)
    (orc : String → Option Nat) (saved : PMap) (k : String) (p : Printer) :
    ∃ i, passFn apis inst orc saved k p = setId p i := by
  obtain ⟨i1, h1⟩ := mergeIdFn_shape saved k p
  obtain ⟨i2, h2⟩ :=
    resolveFst_shape apis inst saved k (mergeIdFn saved k p)
  obtain ⟨i3, h3⟩ :=
    createFn_shape orc k ((resolveId apis inst saved k (mergeIdFn saved k p)).1)
  refine ⟨i3, ?_⟩
  unfold passFn
  rw [h3, h2, h1]
  rfl

/-- A record found in the stable-id index belongs to the fetched list. -/
lemma lookupSys_mem (apis : List ApiPrinter) (inst k : String)
    (a : ApiPrinter) (h : lookupSys apis inst k = some a) : a ∈ apis := by
  unfold lookupSys at h
  exact (List.mem_filter.mp (List.mem_of_mem_getLast? h)).1

/-- When a printer stable-matches a remote record carrying an id, the pass
leaves it holding exactly that id (the create loop does not touch it). -/
lemma passFn_id_stable (apis : List ApiPrinter) (inst : String)
    (orc : String → Option Nat) (saved : PMap) (k : String) (p : Printer)
    (a : ApiPrinter) (ha : lookupSys apis inst k = some a)
    (hids : ∀ b ∈ apis, b.id.isSome = true) :
    (passFn apis inst orc saved k p).printer_id = a.id := by
  have hres : (resolveId apis inst saved k (mergeIdFn saved k p)).1
      = setId (mergeIdFn saved k p) a.id := by
    unfold resolveId
    rw [ha]
    rfl
  have hsome : a.id.isSome = true := hids a (lookupSys_mem apis inst k a ha)
  obtain ⟨v, hv⟩ := Option.isSome_iff_exists.mp hsome
  unfold passFn
  rw [hres]
  unfold createFn
  rw [if_neg (by simp [setId, hv])]
  rfl

/-- Rebuilding the local map against the pass's own output reproduces the
output: the second pass's input map equals the first pass's result. -/
lemma pass_local_eq (apis : List ApiPrinter) (inst : String)
    (orc : String → Option Nat) (disc saved : PMap)
    (hnd : (pmapKeys disc).Nodup) :
    mergeSavedIds disc (syncPass apis inst orc disc saved).1
      = (syncPass apis inst orc disc saved).1 := by
  rw [syncPass_fst_eq, mergeSavedIds_eq_map]
  apply List.map_congr_left
  intro e he
  have hl : List.lookup e.1
      (disc.map fun e => (e.1, passFn apis inst orc saved e.1 e.2))
      = some (passFn apis inst orc saved e.1 e.2) := by
    rw [lookup_entry_map, lookup_self_of_nodup disc e he hnd]
    rfl
  have hfn : mergeIdFn
      (disc.map fun e => (e.1, passFn apis inst orc saved e.1 e.2)) e.1 e.2
      = passFn apis inst orc saved e.1 e.2 := by
    unfold mergeIdFn
    rw [hl]
    obtain ⟨i, hi⟩ := passFn_shape apis inst orc saved e.1 e.2
    rw [hi]
    rfl
  rw [hfn]

/-- If an entry's id agrees with any stable match and no legacy record bears
its name, resolving it against a map containing it is the identity. -/
lemma resolve_self (apis : List ApiPrinter) (inst : String) (m : PMap)
    (hkeys : (pmapKeys m).Nodup) (e : String × Printer) (he : e ∈ m)
    (hstable : ∀ a, lookupSys apis inst e.1 = some a → a.id = e.2.printer_id)
    (hnoleg : lookupSys apis inst e.1 = none →
      lookupByName apis inst e.2.name = none) :
    resolveId apis inst m e.1 e.2 = (e.2, false) := by
  cases h1 : lookupSys apis inst e.1 with
  | some a =>
    have hred : resolveId apis inst m e.1 e.2
        = ({ e.2 with printer_id := a.id }, false) := by
      unfold resolveId
      rw [h1]
    rw [hred, hstable a h1]
  | none =>
    have hred : resolveId apis inst m e.1 e.2
        = ({ e.2 with printer_id := e.2.printer_id }, false) := by
      unfold resolveId
      rw [h1, hnoleg h1, lookup_self_of_nodup m e he hkeys]
    rw [hred]

/-- Synchronizing a map against itself is a no-op when every entry resolves
to itself and already holds a remote id: no creates, no updates, no deletes,
and the map is returned unchanged. -/
lemma sync_self_noop (apis : List ApiPrinter) (inst : String)
    (orc : String → Option Nat) (m : PMap)
    (hkeys : (pmapKeys m).Nodup)
    (hres : ∀ e ∈ m, resolveId apis inst m e.1 e.2 = (e.2, false))
    (hids : ∀ e ∈ m, e.2.printer_id.isSome = true) :
    syncPrintersWithApi apis inst orc m m
      = (m, { creates := [], updates := [], deletes := [] }) := by
  have hm : matchedMap apis inst m m = m := by
    unfold matchedMap
    have hpt : ∀ e ∈ m, (e.1, (resolveId apis inst m e.1 e.2).1) = e := by
      intro e he
      rw [hres e he]
    exact (List.map_congr_left hpt).trans (List.map_id m)
  have hleg : legacyKeys apis inst m m = [] := by
    unfold legacyKeys
    rw [List.filter_eq_nil_iff.mpr (fun e he => by rw [hres e he]; simp)]
    rfl
  have hcm : createdMap orc m = m := by
    unfold createdMap applyCreate
    have hpt : ∀ e ∈ m,
        (if e.2.printer_id.isNone then
          match orc e.1 with
          | some k => (e.1, { e.2 with printer_id := some k })
          | none => e
        else e) = e := by
      intro e he
      obtain ⟨v, hv⟩ := Option.isSome_iff_exists.mp (hids e he)
      rw [if_neg (by rw [hv]; simp)]
    exact (List.map_congr_left hpt).trans (List.map_id m)
  have hcc : createCalls m = [] := by
    unfold createCalls
    rw [List.filter_eq_nil_iff.mpr (fun e he => by
      obtain ⟨v, hv⟩ := Option.isSome_iff_exists.mp (hids e he)
      rw [hv]
      simp)]
    rfl
  have hdel : deleteCalls m m = [] := by
    unfold deleteCalls
    rw [List.filterMap_eq_nil_iff.mpr (fun e he => by
      rw [lookup_self_of_nodup m e he hkeys]
      rfl)]
  have hupd : updateCalls m m m [] = [] := by
    unfold updateCalls
    rw [List.filterMap_eq_nil_iff.mpr (fun e he => by
      rw [lookup_self_of_nodup m e he hkeys]
      simp)]
  show (createdMap orc (matchedMap apis inst m m),
      ({ creates := createCalls (matchedMap apis inst m m)
         updates := updateCalls m m (createdMap orc (matchedMap apis inst m m))
           (legacyKeys apis inst m m)
         deletes := deleteCalls m m } : SyncCalls))
    = (m, ({ creates := [], updates := [], deletes := [] } : SyncCalls))
  rw [hm, hcm, hleg, hcc, hdel, hupd]

/-- Field-wise comparison of a distinct-keyed map with itself finds no
change, so the persisted write is skipped. -/
lemma printersHaveChanged_self (m : PMap) (hkeys : (pmapKeys m).Nodup) :
    printersHaveChanged m m = false := by
  unfold printersHaveChanged
  rw [if_neg (by simp)]
  rw [List.any_eq_false]
  intro e he
  rw [lookup_self_of_nodup m e he hkeys]
  simp

/-- C1 counterexample: with identical local printer sets, identical remote
directory contents, and the synced map produced by the first pass, the
second pass still issues a remote call — the local printer keyed "X" is
matched only via the legacy display-name fallback ("A"), and legacy matches
are force-updated on EVERY pass, so the second pass issues an update and its
call log is not empty. -/
theorem idempotent_sync_counterexample :
    (syncPass [exampleLegacyRemote] "inst" exampleOrcNone exampleDisc
        (syncPass [exampleLegacyRemote] "inst" exampleOrcNone exampleDisc
          []).1).2.1
      = { creates := [], updates := [setId examplePX (some 1)], deletes := [] }
    ∧ (syncPass [exampleLegacyRemote] "inst" exampleOrcNone exampleDisc
        (syncPass [exampleLegacyRemote] "inst" exampleOrcNone exampleDisc
          []).1).2.1
      ≠ ({ creates := [], updates := [], deletes := [] } : SyncCalls) := by
  decide

/-- C1 (amended): consider two consecutive synchronization passes with
identical local printer sets and identical remote directory contents, the
second running on the synced map produced by the first.  Provided the local
stable ids are distinct, every remote record carries an id, no local printer
falls back to a legacy display-name match, and the first pass left every
entry with a resolved remote id (its creates succeeded), the second pass
issues zero create, update, and delete calls, and the write of the synced
map to persistent storage is skipped (`save_printers_if_changed` returns
false: the result equals the input map field-wise). -/
theorem idempotent_sync (R : List ApiPrinter) (inst : String)
    (orc1 orc2 : String → Option Nat) (disc S0 : PMap)
    (hnd : (pmapKeys disc).Nodup)
    (hApiIds : ∀ a ∈ R, a.id.isSome = true)
    (hNoLegacy : ∀ e ∈ disc, lookupSys R inst e.1 = none →
      lookupByName R inst e.2.name = none)
    (hResolved : ∀ e ∈ (syncPass R inst orc1 disc S0).1,
      e.2.printer_id.isSome = true) :
    (syncPass R inst orc2 disc (syncPass R inst orc1 disc S0).1).2.1
        = { creates := [], updates := [], deletes := [] }
    ∧ (syncPass R inst orc2 disc (syncPass R inst orc1 disc S0).1).2.2
        = false := by
  have hkeysU1 : (pmapKeys (syncPass R inst orc1 disc S0).1).Nodup := by
    rw [syncPass_keys]
    exact hnd
  have hA : mergeSavedIds disc (syncPass R inst orc1 disc S0).1
      = (syncPass R inst orc1 disc S0).1 :=
    pass_local_eq R inst orc1 disc S0 hnd
  have hres : ∀ e ∈ (syncPass R inst orc1 disc S0).1,
      resolveId R inst (syncPass R inst orc1 disc S0).1 e.1 e.2
        = (e.2, false) := by
    intro e he
    have he' := he
    rw [syncPass_fst_eq] at he'
    rcases List.mem_map.mp he' with ⟨e0, he0, hEq⟩
    cases hEq
    apply resolve_self R inst (syncPass R inst orc1 disc S0).1 hkeysU1 _ he
    · intro a ha
      exact (passFn_id_stable R inst orc1 S0 e0.1 e0.2 a ha hApiIds).symm
    · intro hnone
      obtain ⟨i, hi⟩ := passFn_shape R inst orc1 S0 e0.1 e0.2
      show lookupByName R inst (passFn R inst orc1 S0 e0.1 e0.2).name = none
      rw [hi]
      exact hNoLegacy e0 he0 hnone
  have hnoop := sync_self_noop R inst orc2 (syncPass R inst orc1 disc S0).1
    hkeysU1 hres hResolved
  constructor
  · show (syncPrintersWithApi R inst orc2
        (mergeSavedIds disc (syncPass R inst orc1 disc S0).1)
        (syncPass R inst orc1 disc S0).1).2
      = { creates := [], updates := [], deletes := [] }
    rw [hA, hnoop]
  · show savePrintersIfChanged
        (syncPrintersWithApi R inst orc2
          (mergeSavedIds disc (syncPass R inst orc1 disc S0).1)
          (syncPass R inst orc1 disc S0).1).1
        (syncPass R inst orc1 disc S0).1
      = false
    rw [hA, hnoop]
    exact printersHaveChanged_self (syncPass R inst orc1 disc S0).1 hkeysU1

/-- Witness for C1 (amended) at a concrete input: single local printer keyed
"X", the remote directory holding its stable-id record (id 5), empty initial
synced map.  The first pass resolves id 5; the second pass issues zero
calls and skips the write. -/
theorem idempotent_sync_witness :
    (pmapKeys exampleDisc).Nodup
    ∧ (∀ a ∈ [exampleStableRemoteX], a.id.isSome = true)
    ∧ (∀ e ∈ exampleDisc, lookupSys [exampleStableRemoteX] "inst" e.1 = none →
        lookupByName [exampleStableRemoteX] "inst" e.2.name = none)
    ∧ (∀ e ∈ (syncPass [exampleStableRemoteX] "inst" exampleOrcNone
          exampleDisc []).1, e.2.printer_id.isSome = true)
    ∧ ((syncPass [exampleStableRemoteX] "inst" exampleOrcNone exampleDisc
          (syncPass [exampleStableRemoteX] "inst" exampleOrcNone exampleDisc
            []).1).2.1
        = { creates := [], updates := [], deletes := [] }
      ∧ (syncPass [exampleStableRemoteX] "inst" exampleOrcNone exampleDisc
          (syncPass [exampleStableRemoteX] "inst" exampleOrcNone exampleDisc
            []).1).2.2
        = false) :=
  ⟨by decide, by decide, by decide, by decide,
    idempotent_sync [exampleStableRemoteX] "inst" exampleOrcNone
      exampleOrcNone exampleDisc [] (by decide) (by decide) (by decide)
      (by decide)⟩

end PrinterBridge
